import Mathlib

/-!
Shallow embedding of the LED-cube animation editor's addressing and
state-propagation core (`src/led_cube_editor/editor.py`).

The embedding models the model-layer slice of each Qt widget class as a
plain record, and each Python method as a state-passing function.  Qt
signal emissions are returned as explicit lists of events; Python
exceptions are modelled by an `Except` result paired with the mutated
state (Python object mutations performed before a `raise` survive it, so
every fallible operation also returns the final state).

Behaviour of the two external collaborators that the modelled methods
call into is translated from their documented Qt/qtpy semantics:
  * `QStackedLayout.setCurrentIndex` ignores an out-of-range index, and
    `QStackedLayout.widget(i)` returns `None` out of range;
  * `qtpy_led.Led.set_status(s)` stores `s` as the widget's `is_on`
    status and fires the `status_changed(s)` signal;
  * `QSpinBox.setValue` clamps to the configured range and fires
    `valueChanged` only when the stored value actually changes.
-/

namespace LedCubeEditor

/-- Python exceptions raised by the modelled code paths. -/
inductive PyExc
  | valueError (msg : String)
  | typeError (msg : String)
  | attributeError (msg : String)
  deriving DecidableEq, Repr

/-- An argument passed from Python to `Frame.duration`: either an `int`
or a value of some other type (carrying its type name). -/
inductive PyVal
  | int (n : Int)
  | nonInt (typeName : String)
  deriving DecidableEq, Repr

/-- A call made to the external preview sink (`LEDCubeView`). -/
inductive SinkCall
  | set_led (x y z : Nat) (state : Bool)
  | show_cube
  | show_layer (z : Nat)
  deriving DecidableEq, Repr

/-- A `led_changed` signal payload: `(x, y, z, new_state)`. -/
abbrev LedEvent := Nat × Nat × Nat × Bool

/-- `LEDWithPosition` (editor.py:79-113): a `qtpy_led.Led` widget holding
its cube coordinate, the widget's on/off status (`is_on`), and
`__last_state`, the state last announced through `led_changed`. -/
structure LEDWithPosition where
  x : Nat
  y : Nat
  z : Nat
  is_on : Bool
  last_state : Bool
  deriving DecidableEq, Repr

namespace LEDWithPosition

/-- `LEDWithPosition.__init__` (editor.py:82-92): the underlying `Led`
starts off, and `__last_state` is initialised to `False`. -/
def init (x y z : Nat) : LEDWithPosition :=
  { x := x, y := y, z := z, is_on := false, last_state := false }

/-- `LEDWithPosition.__emit_led_changed` (editor.py:94-97): invoked by the
`status_changed` signal; emits `led_changed(x, y, z, state)` and records
the state only when `state` differs from `__last_state`. -/
def emit_led_changed (led : LEDWithPosition) (state : Bool) :
    LEDWithPosition × List LedEvent :=
  if state ≠ led.last_state then
    ({ led with last_state := state }, [(led.x, led.y, led.z, state)])
  else
    (led, [])

/-- `Led.set_status(state)` on a `LEDWithPosition`: the widget stores the
new status and fires `status_changed(state)`, which editor.py:91 connects
to `__emit_led_changed`.  Returns the updated widget and the `led_changed`
emissions. -/
def set_status (led : LEDWithPosition) (state : Bool) :
    LEDWithPosition × List LedEvent :=
  emit_led_changed { led with is_on := state } state

/-- A user click on the LED widget toggles it: `set_status(not is_on)`. -/
def toggle (led : LEDWithPosition) : LEDWithPosition × List LedEvent :=
  led.set_status (!led.is_on)

/-- `LEDWithPosition.state` property (editor.py:111-113). -/
def state (led : LEDWithPosition) : Bool :=
  led.is_on

end LEDWithPosition

/-- `Layer` (editor.py:262-296): one z-slice, holding its LED widgets in
grid-layout order. -/
structure Layer where
  layer_num : Nat
  leds : List LEDWithPosition
  deriving DecidableEq, Repr

namespace Layer

/-- `Layer.__init__` (editor.py:265-289): for each row `r < y` and column
`c < x` it creates `LEDWithPosition(c, y - r - 1, z)` and adds it to the
grid layout (labels are not LEDs and are skipped by `get_leds`). -/
def init (x y z : Nat) : Layer :=
  { layer_num := z,
    leds := (List.range y).flatMap fun r =>
      (List.range x).map fun c => LEDWithPosition.init c (y - r - 1) z }

/-- `Layer.get_leds` (editor.py:291-296): every `LEDWithPosition` in the
layout, in layout order. -/
def get_leds (layer : Layer) : List LEDWithPosition :=
  layer.leds

end Layer

/-- `Frame` (editor.py:299-343): a `QStackedWidget` of `Layer`s plus the
frame duration in milliseconds and the stack's current (layer) index. -/
structure Frame where
  layers : List Layer
  duration : Int
  current_layer_idx : Nat
  deriving DecidableEq, Repr

namespace Frame

/-- `Frame.duration` setter (editor.py:336-343): rejects non-`int` input
with `ValueError("Expected integer, got ...")`, accepts
`65535 >= ms >= 0`, and rejects other integers with
`ValueError("Value out of range ...")`. -/
def duration_set (f : Frame) (ms : PyVal) : Except PyExc Frame :=
  match ms with
  | .nonInt typeName =>
      .error (.valueError ("Expected integer, got " ++ typeName))
  | .int n =>
      if 65535 ≥ n ∧ n ≥ 0 then
        .ok { f with duration := n }
      else
        .error (.valueError "Value out of range (65535 >= ms >= 0)")

/-- `Frame.__init__` with the default `duration=5` (editor.py:302-310):
builds one `Layer` per `z_num < z`, sets `__duration = 5`, then runs the
`duration` setter with the default argument 5, which succeeds and keeps 5.
A `QStackedWidget` starts at index 0 once widgets are added. -/
def init (x y z : Nat) : Frame :=
  { layers := (List.range z).map fun z_num => Layer.init x y z_num,
    duration := 5,
    current_layer_idx := 0 }

/-- `Frame.get_layers` (editor.py:321-322). -/
def get_layers (f : Frame) : List Layer :=
  f.layers

/-- `Frame.change_layer` (editor.py:318-319): `setCurrentIndex(idx)`,
which Qt ignores when `idx` is out of range. -/
def change_layer (f : Frame) (idx : Nat) : Frame :=
  if idx < f.layers.length then { f with current_layer_idx := idx } else f

end Frame

instance {α β : Type} [DecidableEq α] [DecidableEq β] :
    DecidableEq (Except α β) := fun a b =>
  match a, b with
  | .ok x, .ok y =>
      if h : x = y then .isTrue (h ▸ rfl)
      else .isFalse fun hh => h (Except.ok.inj hh)
  | .error x, .error y =>
      if h : x = y then .isTrue (h ▸ rfl)
      else .isFalse fun hh => h (Except.error.inj hh)
  | .ok _, .error _ => .isFalse Except.noConfusion
  | .error _, .ok _ => .isFalse Except.noConfusion

/-- Outcome of a fallible Python method: the raised-or-ok result, the
object state after the call (mutations made before a `raise` survive it),
and the Qt signals the call emitted. -/
structure PyStep (σ : Type) (ev : Type) where
  result : Except PyExc Unit
  state : σ
  events : List ev
  deriving DecidableEq, Repr

/-- `LEDLayerEditor` (editor.py:346-429): a `QStackedLayout` of `Frame`s.
`current_index` is the layout's current index (`-1` when empty);
`subscribed` records which frame's `led_changed` signal is currently
connected to the editor's own `led_changed` (editor.py:371/378). -/
structure LEDLayerEditor where
  frames : List Frame
  current_index : Int
  subscribed : Option Nat
  deriving DecidableEq, Repr

namespace LEDLayerEditor

/-- The freshly constructed editor (editor.py:350-359): empty
`QStackedLayout`, whose current index is `-1`, nothing connected. -/
def init : LEDLayerEditor :=
  { frames := [], current_index := -1, subscribed := none }

/-- Index of `self._layout.currentWidget()`: `none` models Qt returning
`None` (index out of range, in particular the empty layout's `-1`). -/
def current_widget_index (e : LEDLayerEditor) : Option Nat :=
  if 0 ≤ e.current_index ∧ e.current_index < e.frames.length then
    some e.current_index.toNat
  else
    none

/-- `self._layout.currentWidget()` as a `Frame`. -/
def current_frame (e : LEDLayerEditor) : Option Frame :=
  match e.current_widget_index with
  | some cur => e.frames[cur]?
  | none => none

/-- `LEDLayerEditor.get_frame` (editor.py:389-390):
`self._layout.widget(number)`, `none` when out of range. -/
def get_frame (e : LEDLayerEditor) (number : Nat) : Option Frame :=
  e.frames[number]?

/-- `LEDLayerEditor.change_frame` (editor.py:365-379).  The guard is the
Python chained comparison `self._layout.count() <= idx < 0`, i.e.
`count ≤ idx ∧ idx < 0`.  Then the current frame's `led_changed` is
disconnected (`RuntimeError` from a missing connection is caught),
`setCurrentIndex(idx)` runs (Qt ignores an out-of-range index), and
`self._layout.widget(idx)` is connected — `None.led_changed` raises
`AttributeError` when `idx` is out of range.  Emits `frame_changed(idx)`
on success. -/
def change_frame (e : LEDLayerEditor) (idx : Int) : PyStep LEDLayerEditor Int :=
  if (e.frames.length : Int) ≤ idx ∧ idx < 0 then
    { result := .error (.valueError "Out of range"), state := e, events := [] }
  else
    match e.current_widget_index with
    | none =>
        { result := .error (.attributeError "led_changed"),
          state := e, events := [] }
    | some cur =>
        let e1 := if e.subscribed = some cur then
            { e with subscribed := none } else e
        let e2 := if 0 ≤ idx ∧ idx < (e1.frames.length : Int) then
            { e1 with current_index := idx } else e1
        if 0 ≤ idx ∧ idx < (e2.frames.length : Int) then
          { result := .ok (),
            state := { e2 with subscribed := some idx.toNat },
            events := [idx] }
        else
          { result := .error (.attributeError "led_changed"),
            state := e2, events := [] }

/-- `LEDLayerEditor.change_duration` (editor.py:385-387): sets the
current frame's `duration`; the setter's exception propagates, and the
editor keeps its prior frames on failure. -/
def change_duration (e : LEDLayerEditor) (ms : PyVal) :
    Except PyExc Unit × LEDLayerEditor :=
  match e.current_widget_index with
  | none => (.error (.attributeError "duration"), e)
  | some cur =>
      match e.frames[cur]? with
      | none => (.error (.attributeError "duration"), e)
      | some f =>
          match f.duration_set ms with
          | .ok f2 => (.ok (), { e with frames := e.frames.set cur f2 })
          | .error err => (.error err, e)

/-- `LEDLayerEditor.set_cube_size` (editor.py:417-429): removes and
deletes every frame widget (severing their signal connections), adds
`frames` fresh `Frame(self, x, y, z)` widgets (the first `addWidget` on
an empty `QStackedLayout` makes index 0 current; `blockSignals` only
suppresses signal emission), then calls
`self.change_frame(self._layout.currentIndex())`. -/
def set_cube_size (_e : LEDLayerEditor) (x y z : Nat) (frames : Nat) :
    PyStep LEDLayerEditor Int :=
  let e1 : LEDLayerEditor :=
    { frames := (List.range frames).map fun _ => Frame.init x y z,
      current_index := if frames = 0 then -1 else 0,
      subscribed := none }
  e1.change_frame e1.current_index

/-- Whether a `led_changed` event raised inside frame `i` is forwarded
to `LEDLayerEditor.led_changed` (and from there to the preview sink,
editor.py:627): exactly the frames whose signal is connected forward. -/
def forwards (e : LEDLayerEditor) (i : Nat) : Bool :=
  e.subscribed = some i

end LEDLayerEditor

/-- The duration spinbox slice of `EditorControls` (editor.py:174-177,
256-259): the `QSpinBox` value (range 0-65535) and whether its
`valueChanged` signal is connected to `duration_changed`. -/
structure EditorControls where
  frame_duration_value : Int
  duration_connected : Bool
  deriving DecidableEq, Repr

namespace EditorControls

/-- `QSpinBox.setValue(ms)` with range `(0, 65535)` (editor.py:175):
clamps to the range and fires `valueChanged` with the new value exactly
when the stored value changes. -/
def spinbox_set_value (current ms : Int) : Int × List Int :=
  let nv := max 0 (min 65535 ms)
  (nv, if nv ≠ current then [nv] else [])

/-- Delivery of the spinbox's `valueChanged` emissions to
`duration_changed`: forwarded only while connected (editor.py:177). -/
def forward_value_changed (c : EditorControls) (events : List Int) : List Int :=
  if c.duration_connected then events else []

/-- `EditorControls.set_duration` (editor.py:256-259): disconnects
`valueChanged` from `duration_changed`, calls `setValue(ms)`, then
reconnects.  Returns the updated control state and the
`duration_changed` emissions that escaped during the call. -/
def set_duration (c : EditorControls) (ms : Int) : EditorControls × List Int :=
  let c1 := { c with duration_connected := false }
  let r := spinbox_set_value c1.frame_duration_value ms
  let emitted := c1.forward_value_changed r.2
  ({ c1 with frame_duration_value := r.1, duration_connected := true }, emitted)

end EditorControls

/-- The display-mode slice of `LEDCubeEditor` (editor.py:537-751):
`__display_mode` and the owned `LEDLayerEditor`. -/
structure LEDCubeEditor where
  display_mode : Nat
  led_editor : LEDLayerEditor
  deriving DecidableEq, Repr

namespace LEDCubeEditor

/-- `LEDCubeEditor.__update_layer_view` (editor.py:749-751): when the
display mode is not 0, calls
`show_layer(self.__led_editor.current_frame.current_layer_idx)` on the
preview sink (an `AttributeError` if there is no current frame). -/
def update_layer_view (ed : LEDCubeEditor) :
    Except PyExc Unit × List SinkCall :=
  if ed.display_mode ≠ 0 then
    match ed.led_editor.current_frame with
    | none => (.error (.attributeError "current_layer_idx"), [])
    | some f => (.ok (), [SinkCall.show_layer f.current_layer_idx])
  else
    (.ok (), [])

/-- `LEDCubeEditor.__change_display_mode` (editor.py:725-731): mode 0
stores the mode and calls `show_cube()` on the sink; mode 1 stores the
mode and runs `__update_layer_view`; other modes do nothing. -/
def change_display_mode (ed : LEDCubeEditor) (mode : Int) :
    Except PyExc Unit × LEDCubeEditor × List SinkCall :=
  if mode = 0 then
    (.ok (), { ed with display_mode := 0 }, [SinkCall.show_cube])
  else if mode = 1 then
    let ed1 := { ed with display_mode := 1 }
    let r := ed1.update_layer_view
    (r.1, ed1, r.2)
  else
    (.ok (), ed, [])

/-- `LEDCubeEditor.__update_frame_duration_control` (editor.py:722-723):
`self.__editor_controls.set_duration(self.__led_editor.get_frame(idx).duration)`.
Any `duration_changed` emission escaping `set_duration` would reach
`LEDLayerEditor.change_duration` through the connection at
editor.py:614; those writebacks are applied in order. -/
def apply_duration_changed (e : LEDLayerEditor) (events : List Int) :
    LEDLayerEditor :=
  events.foldl (fun acc ms => (acc.change_duration (PyVal.int ms)).2) e

/-- See `apply_duration_changed`. -/
def update_frame_duration_control (c : EditorControls) (e : LEDLayerEditor)
    (idx : Nat) : Except PyExc Unit × EditorControls × LEDLayerEditor :=
  match e.get_frame idx with
  | none => (.error (.attributeError "duration"), c, e)
  | some f =>
      let r := c.set_duration f.duration
      (.ok (), r.1, apply_duration_changed e r.2)

end LEDCubeEditor

/-- Whether a sink call is a `set_led` paint call. -/
def SinkCall.is_set_led : SinkCall → Bool
  | .set_led _ _ _ _ => true
  | _ => false

/-- Whether a fallible result is a raised `TypeError`. -/
def raises_type_error {α : Type} : Except PyExc α → Bool
  | .error (.typeError _) => true
  | _ => false

/-! ## Helper lemmas -/

/-- `change_frame` never touches the frame list itself, only the current
index and the signal subscription. -/
theorem change_frame_frames (e : LEDLayerEditor) (idx : Int) :
    (e.change_frame idx).state.frames = e.frames := by
  unfold LEDLayerEditor.change_frame
  split
  · rfl
  · split
    · rfl
    · split_ifs <;> dsimp only <;> split_ifs <;> rfl

/-- Computation of `change_frame` at a valid target index from a state
with a valid current index: the guard does not fire, the old connection
is severed, the new frame becomes current and connected, and
`frame_changed(idx)` is emitted.  (The final `subscribed` overwrite makes
both branches of the disconnect agree.) -/
theorem change_frame_valid (e : LEDLayerEditor) (idx : Int)
    (hcur0 : 0 ≤ e.current_index)
    (hcur1 : e.current_index < (e.frames.length : Int))
    (hidx0 : 0 ≤ idx) (hidx1 : idx < (e.frames.length : Int)) :
    e.change_frame idx =
      { result := .ok (),
        state := { e with current_index := idx, subscribed := some idx.toNat },
        events := [idx] } := by
  unfold LEDLayerEditor.change_frame LEDLayerEditor.current_widget_index
  rw [if_neg (by omega), if_pos ⟨hcur0, hcur1⟩]
  dsimp only
  split_ifs <;> first | rfl | (exfalso; (try dsimp only at *); omega)

/-- Computation of `change_frame` at an index at or past the end, from a
state with a valid current index: the unsatisfiable guard is skipped,
the disconnect happens, `setCurrentIndex` is ignored, and connecting the
`None` widget raises `AttributeError`. -/
theorem change_frame_invalid (e : LEDLayerEditor) (idx : Int)
    (hcur0 : 0 ≤ e.current_index)
    (hcur1 : e.current_index < (e.frames.length : Int))
    (hidx : (e.frames.length : Int) ≤ idx) :
    e.change_frame idx =
      { result := .error (.attributeError "led_changed"),
        state := if e.subscribed = some e.current_index.toNat
                 then { e with subscribed := none } else e,
        events := [] } := by
  unfold LEDLayerEditor.change_frame LEDLayerEditor.current_widget_index
  rw [if_neg (by omega), if_pos ⟨hcur0, hcur1⟩]
  dsimp only
  split_ifs <;> first | rfl | (exfalso; (try dsimp only at *); omega)

/-- `EditorControls.set_duration` never lets a `duration_changed`
emission escape: the signal is disconnected around the `setValue`. -/
theorem set_duration_silent (c : EditorControls) (ms : Int) :
    (c.set_duration ms).2 = [] := rfl

/-- A fresh layer holds `x * y` LED widgets. -/
theorem layer_init_led_count (x y z : Nat) :
    (Layer.init x y z).get_leds.length = x * y := by
  simp only [Layer.init, Layer.get_leds, List.length_flatMap,
    Function.comp_def, List.length_map, List.length_range]
  rw [List.map_const']
  simp [List.sum_replicate, Nat.mul_comm]

/-- Every LED of a fresh layer starts off. -/
theorem layer_init_all_off (x y z : Nat) :
    ∀ led ∈ (Layer.init x y z).get_leds, led.is_on = false := by
  intro led hmem
  simp only [Layer.init, Layer.get_leds, List.mem_flatMap, List.mem_map] at hmem
  obtain ⟨r, _, c, _, hled⟩ := hmem
  rw [← hled]
  rfl

/-! ## Claim theorems -/

/-- C1: for every LED cell and every write, writing the LED's current
state is a no-op that emits no `led_changed` notification; a
notification carrying `(x, y, z, new_state)` is emitted exactly when the
written value differs from the previously notified state.  The
hypothesis is the reachability invariant that the last notified state
agrees with the widget's status (it holds for a fresh LED and is
preserved by every write, as the last conjunct shows). -/
theorem led_write_dedup (led : LEDWithPosition) (v : Bool)
    (h : led.last_state = led.is_on) :
    ((led.set_status v).2 = [] ↔ v = led.is_on) ∧
    (v = led.is_on → (led.set_status v).1 = led) ∧
    (v ≠ led.is_on → (led.set_status v).2 = [(led.x, led.y, led.z, v)]) ∧
    ((led.set_status v).2 ≠ [] ↔ v ≠ led.last_state) ∧
    (led.set_status v).1.last_state = (led.set_status v).1.is_on := by
  obtain ⟨x, y, z, s, l⟩ := led
  simp only at h
  subst h
  simp only [LEDWithPosition.set_status, LEDWithPosition.emit_led_changed]
  cases l <;> cases v <;> simp

/-- Witness for `led_write_dedup` at a fresh LED and the write `true`. -/
theorem led_write_dedup_witness :
    (LEDWithPosition.init 1 2 3).last_state = (LEDWithPosition.init 1 2 3).is_on ∧
    ((((LEDWithPosition.init 1 2 3).set_status true).2 = [] ↔
        true = (LEDWithPosition.init 1 2 3).is_on) ∧
      (true = (LEDWithPosition.init 1 2 3).is_on →
        ((LEDWithPosition.init 1 2 3).set_status true).1 = LEDWithPosition.init 1 2 3) ∧
      (true ≠ (LEDWithPosition.init 1 2 3).is_on →
        ((LEDWithPosition.init 1 2 3).set_status true).2 = [(1, 2, 3, true)]) ∧
      (((LEDWithPosition.init 1 2 3).set_status true).2 ≠ [] ↔
        true ≠ (LEDWithPosition.init 1 2 3).last_state) ∧
      ((LEDWithPosition.init 1 2 3).set_status true).1.last_state =
        ((LEDWithPosition.init 1 2 3).set_status true).1.is_on) :=
  ⟨by decide, led_write_dedup (LEDWithPosition.init 1 2 3) true (by decide)⟩

/-- C5: from any reachable LED cell state (last notified state equal to
the current state), toggling twice restores the LED exactly, and each of
the two toggles emits exactly one change notification. -/
theorem led_toggle_twice (led : LEDWithPosition)
    (h : led.last_state = led.is_on) :
    (led.toggle.1.toggle.1 = led) ∧
    led.toggle.2.length = 1 ∧
    led.toggle.1.toggle.2.length = 1 := by
  obtain ⟨x, y, z, s, l⟩ := led
  simp only at h
  subst h
  simp only [LEDWithPosition.toggle, LEDWithPosition.set_status,
    LEDWithPosition.emit_led_changed]
  cases l <;> simp

/-- Witness for `led_toggle_twice` at a fresh LED. -/
theorem led_toggle_twice_witness :
    (LEDWithPosition.init 0 0 0).last_state = (LEDWithPosition.init 0 0 0).is_on ∧
    (((LEDWithPosition.init 0 0 0).toggle.1.toggle.1 = LEDWithPosition.init 0 0 0) ∧
      (LEDWithPosition.init 0 0 0).toggle.2.length = 1 ∧
      (LEDWithPosition.init 0 0 0).toggle.1.toggle.2.length = 1) :=
  ⟨by decide, led_toggle_twice (LEDWithPosition.init 0 0 0) (by decide)⟩

/-- C2 counterexample: setting a non-integer duration raises
`ValueError("Expected integer, got ...")`, not a `TypeError` as the
claim states. -/
theorem duration_nonint_raises_value_error :
    (Frame.init 2 2 2).duration_set (PyVal.nonInt "str")
        = .error (.valueError "Expected integer, got str") ∧
    raises_type_error ((Frame.init 2 2 2).duration_set (PyVal.nonInt "str"))
        = false := by
  constructor
  · rfl
  · rfl

/-- C2 amended: the duration setter rejects non-integer input with a
`ValueError` (not a `TypeError`), rejects integers outside `[0, 65535]`
with a range `ValueError`, accepts 0 and 65535, rejects -1 and 65536,
and a newly constructed frame has duration 5 by default. -/
theorem duration_validation (f : Frame) (t : String) (n : Int) (x y z : Nat)
    (hout : n < 0 ∨ 65535 < n) :
    f.duration_set (PyVal.nonInt t)
        = .error (.valueError ("Expected integer, got " ++ t)) ∧
    f.duration_set (PyVal.int n)
        = .error (.valueError "Value out of range (65535 >= ms >= 0)") ∧
    f.duration_set (PyVal.int 0) = .ok { f with duration := 0 } ∧
    f.duration_set (PyVal.int 65535) = .ok { f with duration := 65535 } ∧
    f.duration_set (PyVal.int (-1))
        = .error (.valueError "Value out of range (65535 >= ms >= 0)") ∧
    f.duration_set (PyVal.int 65536)
        = .error (.valueError "Value out of range (65535 >= ms >= 0)") ∧
    (Frame.init x y z).duration = 5 := by
  refine ⟨rfl, ?_, ?_, ?_, ?_, ?_, rfl⟩
  · simp only [Frame.duration_set]
    rw [if_neg (by omega)]
  · simp only [Frame.duration_set]
    rw [if_pos (by omega)]
  · simp only [Frame.duration_set]
    rw [if_pos (by omega)]
  · rfl
  · rfl

/-- Witness for `duration_validation` at a fresh 2x2x2 frame and the
out-of-range integer -1. -/
theorem duration_validation_witness :
    ((-1 : Int) < 0 ∨ (65535 : Int) < -1) ∧
    ((Frame.init 2 2 2).duration_set (PyVal.nonInt "str")
        = .error (.valueError ("Expected integer, got " ++ "str")) ∧
      (Frame.init 2 2 2).duration_set (PyVal.int (-1))
        = .error (.valueError "Value out of range (65535 >= ms >= 0)") ∧
      (Frame.init 2 2 2).duration_set (PyVal.int 0)
        = .ok { Frame.init 2 2 2 with duration := 0 } ∧
      (Frame.init 2 2 2).duration_set (PyVal.int 65535)
        = .ok { Frame.init 2 2 2 with duration := 65535 } ∧
      (Frame.init 2 2 2).duration_set (PyVal.int (-1))
        = .error (.valueError "Value out of range (65535 >= ms >= 0)") ∧
      (Frame.init 2 2 2).duration_set (PyVal.int 65536)
        = .error (.valueError "Value out of range (65535 >= ms >= 0)") ∧
      (Frame.init 2 2 2).duration = 5) :=
  ⟨Or.inl (by decide),
    duration_validation (Frame.init 2 2 2) "str" (-1) 2 2 2 (Or.inl (by decide))⟩

/-- C3: evaluating `change_frame` at the failing input — a 3-frame
editor asked for frame index 3, one past the end.  The guard
`self._layout.count() <= idx < 0` is the Python chained comparison
`count ≤ idx ∧ idx < 0` and is never satisfied, so instead of the
claimed range error the call disconnects the active frame's listener and
dies with an `AttributeError`; the current index happens to stay
unchanged, but no frame is left subscribed. -/
theorem change_frame_past_end_not_range_error :
    ((LEDLayerEditor.init.set_cube_size 2 2 2 3).state.change_frame 3).result
        = .error (.attributeError "led_changed") ∧
    ((LEDLayerEditor.init.set_cube_size 2 2 2 3).state.change_frame 3).result
        ≠ .error (.valueError "Out of range") ∧
    ((LEDLayerEditor.init.set_cube_size 2 2 2 3).state.change_frame 3).state.current_index
        = (LEDLayerEditor.init.set_cube_size 2 2 2 3).state.current_index ∧
    ((LEDLayerEditor.init.set_cube_size 2 2 2 3).state.change_frame 3).state.subscribed
        = none := by
  refine ⟨by decide, by decide, by decide, by decide⟩

/-- C4: `set_cube_size(x, y, z, frames)` with positive dimensions and at
least one frame succeeds, replaces the frame list wholesale with
`frames` fresh frames, resets the current frame index to 0, and every
frame yields `z` layers of exactly `x * y` LEDs, all off. -/
theorem set_cube_size_fresh (e : LEDLayerEditor) (x y z n : Nat)
    (_hx : 0 < x) (_hy : 0 < y) (_hz : 0 < z) (hn : 1 ≤ n) :
    (e.set_cube_size x y z n).result = .ok () ∧
    (e.set_cube_size x y z n).state.frames
        = (List.range n).map (fun _ => Frame.init x y z) ∧
    (e.set_cube_size x y z n).state.frames.length = n ∧
    (e.set_cube_size x y z n).state.current_index = 0 ∧
    (∀ i, i < n →
      (e.set_cube_size x y z n).state.get_frame i = some (Frame.init x y z) ∧
      (Frame.init x y z).get_layers.length = z ∧
      (∀ l ∈ (Frame.init x y z).get_layers,
        l.get_leds.length = x * y ∧
        ∀ led ∈ l.get_leds, led.is_on = false)) := by
  have hn0 : n ≠ 0 := by omega
  have hstep :
      e.set_cube_size x y z n =
        (⟨(List.range n).map (fun _ => Frame.init x y z), 0, none⟩ :
          LEDLayerEditor).change_frame 0 := by
    unfold LEDLayerEditor.set_cube_size
    rw [if_neg hn0]
  have hres :
      (⟨(List.range n).map (fun _ => Frame.init x y z), 0, none⟩ :
          LEDLayerEditor).change_frame 0 =
        { result := .ok (),
          state := ⟨(List.range n).map (fun _ => Frame.init x y z), 0, some 0⟩,
          events := [0] } := by
    rw [change_frame_valid] <;> simp <;> omega
  rw [hstep, hres]
  refine ⟨rfl, rfl, by simp, rfl, ?_⟩
  intro i hi
  refine ⟨?_, by simp [Frame.init, Frame.get_layers], ?_⟩
  · simp [LEDLayerEditor.get_frame, List.getElem?_map, List.getElem?_range, hi]
  · intro l hl
    simp only [Frame.init, Frame.get_layers, List.mem_map, List.mem_range] at hl
    obtain ⟨z_num, _, hlz⟩ := hl
    rw [← hlz]
    exact ⟨layer_init_led_count x y z_num, layer_init_all_off x y z_num⟩

/-- Witness for `set_cube_size_fresh` on a fresh editor with a 2x2x2
cube and 3 frames. -/
theorem set_cube_size_fresh_witness :
    (0 < 2 ∧ 0 < 2 ∧ 0 < 2 ∧ 1 ≤ 3) ∧
    ((LEDLayerEditor.init.set_cube_size 2 2 2 3).result = .ok () ∧
      (LEDLayerEditor.init.set_cube_size 2 2 2 3).state.frames
          = (List.range 3).map (fun _ => Frame.init 2 2 2) ∧
      (LEDLayerEditor.init.set_cube_size 2 2 2 3).state.frames.length = 3 ∧
      (LEDLayerEditor.init.set_cube_size 2 2 2 3).state.current_index = 0 ∧
      (∀ i, i < 3 →
        (LEDLayerEditor.init.set_cube_size 2 2 2 3).state.get_frame i
            = some (Frame.init 2 2 2) ∧
        (Frame.init 2 2 2).get_layers.length = 2 ∧
        (∀ l ∈ (Frame.init 2 2 2).get_layers,
          l.get_leds.length = 2 * 2 ∧
          ∀ led ∈ l.get_leds, led.is_on = false))) :=
  ⟨⟨by decide, by decide, by decide, by decide⟩,
    set_cube_size_fresh LEDLayerEditor.init 2 2 2 3
      (by decide) (by decide) (by decide) (by decide)⟩

/-- C6: frame duration is per-frame state that persists across frame
navigation.  Switching the active frame never changes any frame's stored
duration, and in the concrete scenario — set frame 0's duration to 5000,
switch to frame 1 (reads the default 5), switch back — frame 0 reads
back 5000. -/
theorem frame_switch_preserves_durations :
    (∀ (e : LEDLayerEditor) (idx : Int),
      (e.change_frame idx).state.frames.map Frame.duration
        = e.frames.map Frame.duration) ∧
    ((((LEDLayerEditor.init.set_cube_size 2 2 2 2).state.change_duration
          (PyVal.int 5000)).2.get_frame 0).map Frame.duration = some 5000 ∧
      ((((LEDLayerEditor.init.set_cube_size 2 2 2 2).state.change_duration
          (PyVal.int 5000)).2.change_frame 1).state.get_frame 1).map
          Frame.duration = some 5 ∧
      (((((LEDLayerEditor.init.set_cube_size 2 2 2 2).state.change_duration
          (PyVal.int 5000)).2.change_frame 1).state.change_frame 0).state.get_frame
          0).map Frame.duration = some 5000) := by
  constructor
  · intro e idx
    rw [change_frame_frames]
  · refine ⟨by decide, by decide, by decide⟩

/-- C7: a successful frame switch un-subscribes the previously active
frame's `led_changed` listener and subscribes the newly active frame's,
so that afterwards exactly the new active frame's LED changes are
forwarded upward: a change in any other frame is never forwarded and a
change in the active frame is never dropped. -/
theorem change_frame_resubscribes (e : LEDLayerEditor) (idx : Int)
    (_hsub : e.subscribed = some e.current_index.toNat)
    (hcur0 : 0 ≤ e.current_index)
    (hcur1 : e.current_index < (e.frames.length : Int))
    (hidx0 : 0 ≤ idx) (hidx1 : idx < (e.frames.length : Int)) :
    (e.change_frame idx).result = .ok () ∧
    (e.change_frame idx).state.current_index = idx ∧
    (e.change_frame idx).state.subscribed = some idx.toNat ∧
    (∀ j : Nat, (e.change_frame idx).state.forwards j = true ↔ j = idx.toNat) := by
  rw [change_frame_valid e idx hcur0 hcur1 hidx0 hidx1]
  refine ⟨rfl, rfl, rfl, ?_⟩
  intro j
  simp [LEDLayerEditor.forwards, eq_comm]

/-- Witness for `change_frame_resubscribes`: a fresh 2-frame editor
(frame 0 active and subscribed) switching to frame 1; forwarding is
checked at both frame indices. -/
theorem change_frame_resubscribes_witness :
    ((LEDLayerEditor.init.set_cube_size 2 2 2 2).state.subscribed
        = some (LEDLayerEditor.init.set_cube_size 2 2 2 2).state.current_index.toNat ∧
      0 ≤ (LEDLayerEditor.init.set_cube_size 2 2 2 2).state.current_index ∧
      (LEDLayerEditor.init.set_cube_size 2 2 2 2).state.current_index
        < ((LEDLayerEditor.init.set_cube_size 2 2 2 2).state.frames.length : Int) ∧
      (0 : Int) ≤ 1 ∧
      (1 : Int) < ((LEDLayerEditor.init.set_cube_size 2 2 2 2).state.frames.length : Int)) ∧
    (((LEDLayerEditor.init.set_cube_size 2 2 2 2).state.change_frame 1).result = .ok () ∧
      ((LEDLayerEditor.init.set_cube_size 2 2 2 2).state.change_frame 1).state.current_index = 1 ∧
      ((LEDLayerEditor.init.set_cube_size 2 2 2 2).state.change_frame 1).state.subscribed
        = some (1 : Int).toNat ∧
      (((LEDLayerEditor.init.set_cube_size 2 2 2 2).state.change_frame 1).state.forwards 0 = true ↔
        (0 : Nat) = (1 : Int).toNat) ∧
      (((LEDLayerEditor.init.set_cube_size 2 2 2 2).state.change_frame 1).state.forwards 1 = true ↔
        (1 : Nat) = (1 : Int).toNat)) :=
  ⟨⟨by decide, by decide, by decide, by decide, by decide⟩,
    let h := change_frame_resubscribes
      (LEDLayerEditor.init.set_cube_size 2 2 2 2).state 1
      (by decide) (by decide) (by decide) (by decide) (by decide)
    ⟨h.1, h.2.1, h.2.2.1, h.2.2.2 0, h.2.2.2 1⟩⟩

/-- C9: asking for a frame index at or past the end does not raise the
range error (the guard `count <= idx < 0` is never satisfiable): the
call first disconnects the active frame's `led_changed` listener, leaves
the current index untouched, and then dies with an `AttributeError`
connecting the non-existent frame, leaving no frame subscribed. -/
theorem change_frame_past_end_attr (e : LEDLayerEditor) (idx : Int)
    (hsub : e.subscribed = some e.current_index.toNat)
    (hcur0 : 0 ≤ e.current_index)
    (hcur1 : e.current_index < (e.frames.length : Int))
    (hidx : (e.frames.length : Int) ≤ idx) :
    (e.change_frame idx).result = .error (.attributeError "led_changed") ∧
    (e.change_frame idx).result ≠ .error (.valueError "Out of range") ∧
    (e.change_frame idx).state.subscribed = none ∧
    (e.change_frame idx).state.current_index = e.current_index := by
  rw [change_frame_invalid e idx hcur0 hcur1 hidx, if_pos hsub]
  exact ⟨rfl, by simp, rfl, rfl⟩

/-- Witness for `change_frame_past_end_attr`: a fresh 3-frame editor
asked for index 3. -/
theorem change_frame_past_end_attr_witness :
    ((LEDLayerEditor.init.set_cube_size 2 2 2 3).state.subscribed
        = some (LEDLayerEditor.init.set_cube_size 2 2 2 3).state.current_index.toNat ∧
      0 ≤ (LEDLayerEditor.init.set_cube_size 2 2 2 3).state.current_index ∧
      (LEDLayerEditor.init.set_cube_size 2 2 2 3).state.current_index
        < ((LEDLayerEditor.init.set_cube_size 2 2 2 3).state.frames.length : Int) ∧
      ((LEDLayerEditor.init.set_cube_size 2 2 2 3).state.frames.length : Int) ≤ 3) ∧
    (((LEDLayerEditor.init.set_cube_size 2 2 2 3).state.change_frame 3).result
        = .error (.attributeError "led_changed") ∧
      ((LEDLayerEditor.init.set_cube_size 2 2 2 3).state.change_frame 3).result
        ≠ .error (.valueError "Out of range") ∧
      ((LEDLayerEditor.init.set_cube_size 2 2 2 3).state.change_frame 3).state.subscribed
        = none ∧
      ((LEDLayerEditor.init.set_cube_size 2 2 2 3).state.change_frame 3).state.current_index
        = (LEDLayerEditor.init.set_cube_size 2 2 2 3).state.current_index) :=
  ⟨⟨by decide, by decide, by decide, by decide⟩,
    change_frame_past_end_attr (LEDLayerEditor.init.set_cube_size 2 2 2 3).state 3
      (by decide) (by decide) (by decide) (by decide)⟩

/-- C8 counterexample: on a fresh one-frame 2x2x2 editor, switching the
display mode to `ACTIVE_LAYER` (mode 1) sends exactly one `show_layer`
call to the preview sink and not a single `set_led` call, even though
the active layer holds 4 LEDs; switching to `FULL_CUBE` (mode 0) sends
exactly one `show_cube` call and no `set_led` calls either. -/
theorem display_mode_switch_no_repaint :
    ((⟨0, (LEDLayerEditor.init.set_cube_size 2 2 2 1).state⟩ :
        LEDCubeEditor).change_display_mode 1).2.2 = [SinkCall.show_layer 0] ∧
    ((⟨0, (LEDLayerEditor.init.set_cube_size 2 2 2 1).state⟩ :
        LEDCubeEditor).led_editor.current_frame).map
        (fun f => f.get_layers.map fun l => l.get_leds.length) = some [4, 4] ∧
    (((⟨0, (LEDLayerEditor.init.set_cube_size 2 2 2 1).state⟩ :
        LEDCubeEditor).change_display_mode 1).2.2).countP SinkCall.is_set_led = 0 ∧
    ((⟨0, (LEDLayerEditor.init.set_cube_size 2 2 2 1).state⟩ :
        LEDCubeEditor).change_display_mode 0).2.2 = [SinkCall.show_cube] ∧
    (((⟨0, (LEDLayerEditor.init.set_cube_size 2 2 2 1).state⟩ :
        LEDCubeEditor).change_display_mode 0).2.2).countP SinkCall.is_set_led = 0 := by
  refine ⟨by decide, by decide, by decide, by decide, by decide⟩

/-- C8 amended: switching the display mode to `ACTIVE_LAYER` stores mode
1 and sends the preview sink exactly one `show_layer` call carrying the
active frame's current layer index — no `set_led` repaint; switching to
`FULL_CUBE` stores mode 0 and sends exactly one `show_cube` call — no
`set_led` repaint.  (Per-LED `set_led` repaints happen on frame
switches, not on display-mode switches; the sink keeps its own LED
state.) -/
theorem display_mode_switch_view_calls (ed : LEDCubeEditor) (f : Frame)
    (h : ed.led_editor.current_frame = some f) :
    (ed.change_display_mode 1).2.2 = [SinkCall.show_layer f.current_layer_idx] ∧
    (ed.change_display_mode 1).2.1.display_mode = 1 ∧
    ((ed.change_display_mode 1).2.2).countP SinkCall.is_set_led = 0 ∧
    (ed.change_display_mode 0).2.2 = [SinkCall.show_cube] ∧
    (ed.change_display_mode 0).2.1.display_mode = 0 ∧
    ((ed.change_display_mode 0).2.2).countP SinkCall.is_set_led = 0 := by
  unfold LEDCubeEditor.change_display_mode LEDCubeEditor.update_layer_view
  norm_num
  rw [h]
  simp [SinkCall.is_set_led]

/-- Witness for `display_mode_switch_view_calls` on a fresh one-frame
2x2x2 editor. -/
theorem display_mode_switch_view_calls_witness :
    ((⟨0, (LEDLayerEditor.init.set_cube_size 2 2 2 1).state⟩ :
        LEDCubeEditor).led_editor.current_frame = some (Frame.init 2 2 2)) ∧
    (((⟨0, (LEDLayerEditor.init.set_cube_size 2 2 2 1).state⟩ :
        LEDCubeEditor).change_display_mode 1).2.2
        = [SinkCall.show_layer (Frame.init 2 2 2).current_layer_idx] ∧
      ((⟨0, (LEDLayerEditor.init.set_cube_size 2 2 2 1).state⟩ :
        LEDCubeEditor).change_display_mode 1).2.1.display_mode = 1 ∧
      (((⟨0, (LEDLayerEditor.init.set_cube_size 2 2 2 1).state⟩ :
        LEDCubeEditor).change_display_mode 1).2.2).countP SinkCall.is_set_led = 0 ∧
      ((⟨0, (LEDLayerEditor.init.set_cube_size 2 2 2 1).state⟩ :
        LEDCubeEditor).change_display_mode 0).2.2 = [SinkCall.show_cube] ∧
      ((⟨0, (LEDLayerEditor.init.set_cube_size 2 2 2 1).state⟩ :
        LEDCubeEditor).change_display_mode 0).2.1.display_mode = 0 ∧
      (((⟨0, (LEDLayerEditor.init.set_cube_size 2 2 2 1).state⟩ :
        LEDCubeEditor).change_display_mode 0).2.2).countP SinkCall.is_set_led = 0) :=
  ⟨by decide,
    display_mode_switch_view_calls
      (⟨0, (LEDLayerEditor.init.set_cube_size 2 2 2 1).state⟩ : LEDCubeEditor)
      (Frame.init 2 2 2) (by decide)⟩

/-- C10: `EditorControls.set_duration` disconnects the spinbox's
`valueChanged` from `duration_changed` around the write, so no
`duration_changed` signal ever escapes it, and consequently refreshing
the duration control on a frame switch
(`__update_frame_duration_control`) never writes a duration back into
any frame's model state. -/
theorem set_duration_suppresses_writeback :
    (∀ (c : EditorControls) (ms : Int), (c.set_duration ms).2 = []) ∧
    (∀ (c : EditorControls) (e : LEDLayerEditor) (idx : Nat) (f : Frame),
      e.get_frame idx = some f →
      (LEDCubeEditor.update_frame_duration_control c e idx).1 = .ok () ∧
      (LEDCubeEditor.update_frame_duration_control c e idx).2.2 = e) := by
  refine ⟨set_duration_silent, ?_⟩
  intro c e idx f h
  unfold LEDCubeEditor.update_frame_duration_control
  rw [h]
  exact ⟨rfl, rfl⟩

/-- Witness for `set_duration_suppresses_writeback` on a fresh one-frame
editor and a spinbox holding 5. -/
theorem set_duration_suppresses_writeback_witness :
    ((⟨5, true⟩ : EditorControls).set_duration 5000).2 = [] ∧
    ((LEDLayerEditor.init.set_cube_size 2 2 2 1).state.get_frame 0
        = some (Frame.init 2 2 2)) ∧
    (LEDCubeEditor.update_frame_duration_control ⟨5, true⟩
        (LEDLayerEditor.init.set_cube_size 2 2 2 1).state 0).1 = .ok () ∧
    (LEDCubeEditor.update_frame_duration_control ⟨5, true⟩
        (LEDLayerEditor.init.set_cube_size 2 2 2 1).state 0).2.2
      = (LEDLayerEditor.init.set_cube_size 2 2 2 1).state :=
  ⟨set_duration_suppresses_writeback.1 ⟨5, true⟩ 5000,
    by decide,
    (set_duration_suppresses_writeback.2 ⟨5, true⟩
      (LEDLayerEditor.init.set_cube_size 2 2 2 1).state 0 (Frame.init 2 2 2)
      (by decide)).1,
    (set_duration_suppresses_writeback.2 ⟨5, true⟩
      (LEDLayerEditor.init.set_cube_size 2 2 2 1).state 0 (Frame.init 2 2 2)
      (by decide)).2⟩

end LedCubeEditor
